import Mathlib

/-!
Shallow embedding of the ChordPro web service (src/app.py) and proofs about
its specification claims.  Python strings are modelled as Lean `String`
(length = number of code points, as in Python `len`), byte-level facts go
through an explicit UTF-8 encoder, Python run-time values reaching the
option/argument layer are modelled by the inductive `PyVal`, and the
filesystem / subprocess environment of one conversion is an explicit record.
-/

/-- Model of a Python run-time value as it can appear in the decoded JSON
request body: strings, ints, bools, lists, string-keyed dicts and None. -/
inductive PyVal where
  | str (s : String)
  | int (n : Int)
  | bool (b : Bool)
  | list (xs : List PyVal)
  | dict (kvs : List (String × PyVal))
  | none

/-- Python type name of a value, as it appears in error messages. -/
def pyTypeName : PyVal → String
  | .str _ => "str"
  | .int _ => "int"
  | .bool _ => "bool"
  | .list _ => "list"
  | .dict _ => "dict"
  | .none => "NoneType"

/-- Python truthiness (`bool(v)`) for the modelled values. -/
def pyTruthy : PyVal → Bool
  | .str s => !s.data.isEmpty
  | .int n => n != 0
  | .bool b => b
  | .list xs => !xs.isEmpty
  | .dict kvs => !kvs.isEmpty
  | .none => false

mutual

/-- Python `repr(v)` for the modelled values (string escaping is not
reproduced; no verified claim depends on the rendering of containers). -/
def pyReprFn : PyVal → String
  | .str s => "'" ++ s ++ "'"
  | .int n => toString n
  | .bool b => if b then "True" else "False"
  | .list xs => "[" ++ pyReprList xs ++ "]"
  | .dict kvs => "\x7b" ++ pyReprPairs kvs ++ "\x7d"
  | .none => "None"

/-- Comma-separated reprs of the elements of a Python list. -/
def pyReprList : List PyVal → String
  | [] => ""
  | [x] => pyReprFn x
  | x :: y :: xs => pyReprFn x ++ ", " ++ pyReprList (y :: xs)

/-- Comma-separated reprs of the pairs of a Python dict. -/
def pyReprPairs : List (String × PyVal) → String
  | [] => ""
  | [(k, v)] => "'" ++ k ++ "': " ++ pyReprFn v
  | (k, v) :: p :: kvs => "'" ++ k ++ "': " ++ pyReprFn v ++ ", " ++ pyReprPairs (p :: kvs)

end

/-- Python `str(v)`: identity on strings, repr-based on containers. -/
def pyStrFn : PyVal → String
  | .str s => s
  | v => pyReprFn v

/-- Lookup of a key in a Python dict modelled as an association list with
unique keys (`d.get(k)` / `k in d`). -/
def pyLookup (kvs : List (String × PyVal)) (k : String) : Option PyVal :=
  (kvs.find? (fun kv => kv.1 = k)).map (fun kv => kv.2)

/-- Characters treated as whitespace by Python `str.strip()`. -/
def pyIsSpace (c : Char) : Bool :=
  c = ' ' || c = '\t' || c = '\n' || c = '\x0d' || c = '\x0b' || c = '\x0c'

/-- Python `str.strip()` on a character list: drop whitespace at both ends. -/
def pyStrip (s : List Char) : List Char :=
  ((s.dropWhile pyIsSpace).reverse.dropWhile pyIsSpace).reverse

/-- Python `s.split(',')`: split at every comma; `"".split(',') = [""]`,
and consecutive/trailing commas produce empty pieces. -/
def splitComma : List Char → List (List Char)
  | [] => [[]]
  | c :: t =>
    if c = ',' then [] :: splitComma t
    else
      match splitComma t with
      | [] => [[c]]
      | p :: ps => (c :: p) :: ps

/-- Python exception escaping the argument builder. -/
inductive PyExn where
  | attributeError (msg : String)
deriving DecidableEq, Repr

/-- Message text of a Python exception (`str(e)`). -/
def pyExnStr : PyExn → String
  | .attributeError m => m

/-- Tokens contributed by the `meta` option: `options['meta'].items()` raises
AttributeError when the value is not a dict; otherwise one
`--meta key=value` pair per item, in insertion order. -/
def metaTokens : Option PyVal → Except PyExn (List PyVal)
  | Option.none => .ok []
  | some (PyVal.dict kvs) =>
      .ok (kvs.flatMap (fun kv => [PyVal.str "--meta", PyVal.str (kv.1 ++ "=" ++ pyStrFn kv.2)]))
  | some v =>
      .error (.attributeError ("'" ++ pyTypeName v ++ "' object has no attribute 'items'"))

/-- Tokens contributed by the `config` option: a string is comma-split and
each piece stripped (no non-empty filter); a list contributes its elements
verbatim; any other value is stringified as a single config. -/
def configTokens : Option PyVal → List PyVal
  | Option.none => []
  | some (PyVal.str s) =>
      (splitComma s.data).flatMap
        (fun p => [PyVal.str "--config", PyVal.str (String.mk (pyStrip p))])
  | some (PyVal.list xs) => xs.flatMap (fun c => [PyVal.str "--config", c])
  | some v => [PyVal.str "--config", PyVal.str (pyStrFn v)]

/-- Embedding of `ChordProProcessor._add_options`: extends `cmd` with the
tokens for transpose, meta, config and diagrams, in that order; raises
(as `Except.error`) exactly when the Python code would. -/
def addOptions (cmd : List PyVal) (options : List (String × PyVal)) :
    Except PyExn (List PyVal) :=
  let cmd1 :=
    match pyLookup options "transpose" with
    | some v => cmd ++ [PyVal.str "--transpose", PyVal.str (pyStrFn v)]
    | Option.none => cmd
  match metaTokens (pyLookup options "meta") with
  | .error e => .error e
  | .ok mt =>
    let cmd2 := cmd1 ++ mt
    let cmd3 := cmd2 ++ configTokens (pyLookup options "config")
    match pyLookup options "diagrams" with
    | some v =>
        if pyTruthy v then .ok (cmd3 ++ [PyVal.str "--diagrams"])
        else .ok (cmd3 ++ [PyVal.str "--no-diagrams"])
    | Option.none => .ok cmd3

/-! ## Credential store (secure_compare_api_key / is_valid_api_key) -/

/-- UTF-8 encoding of one character, as `str.encode('utf-8')` produces. -/
def utf8EncodeChar (c : Char) : List Nat :=
  let n := c.toNat
  if n < 0x80 then [n]
  else if n < 0x800 then
    [0xC0 ||| (n >>> 6), 0x80 ||| (n &&& 0x3F)]
  else if n < 0x10000 then
    [0xE0 ||| (n >>> 12), 0x80 ||| ((n >>> 6) &&& 0x3F), 0x80 ||| (n &&& 0x3F)]
  else
    [0xF0 ||| (n >>> 18), 0x80 ||| ((n >>> 12) &&& 0x3F),
     0x80 ||| ((n >>> 6) &&& 0x3F), 0x80 ||| (n &&& 0x3F)]

/-- UTF-8 byte sequence of a string (`s.encode('utf-8')`). -/
def utf8Encode (s : String) : List Nat :=
  s.data.flatMap utf8EncodeChar

/-- Embedding of `secure_compare_api_key`: non-strings compare as False;
strings are compared as their UTF-8 byte sequences via
`hmac.compare_digest`, which returns True iff the byte sequences are
equal. -/
def secure_compare_api_key (provided_key valid_key : PyVal) : Bool :=
  match provided_key, valid_key with
  | .str p, .str v => utf8Encode p = utf8Encode v
  | _, _ => false

/-- Embedding of `is_valid_api_key`: falsy input is rejected immediately;
otherwise the stored keys are scanned and True is returned on a match. -/
def is_valid_api_key (validKeys : List String) (provided_key : PyVal) : Bool :=
  if !pyTruthy provided_key then false
  else validKeys.any (fun vk => secure_compare_api_key provided_key (.str vk))

/-- Instrumented loop of `is_valid_api_key`: same result, together with the
number of `secure_compare_api_key` calls performed (the Python `for` loop
returns True as soon as a comparison succeeds). -/
def isValidCountLoop (provided_key : PyVal) : List String → Nat → Bool × Nat
  | [], n => (false, n)
  | vk :: vks, n =>
    if secure_compare_api_key provided_key (.str vk) then (true, n + 1)
    else isValidCountLoop provided_key vks (n + 1)

/-- Result of `is_valid_api_key` together with the comparison count. -/
def isValidCount (validKeys : List String) (provided_key : PyVal) : Bool × Nat :=
  if !pyTruthy provided_key then (false, 0)
  else isValidCountLoop provided_key validKeys 0

/-! ## Startup credential loading (load_api_keys) -/

/-- Python `os.environ.get(k, '')` over an environment association list. -/
def getenvD (env : List (String × String)) (k : String) : String :=
  ((env.find? (fun kv => kv.1 = k)).map (fun kv => kv.2)).getD ""

/-- Python `str.strip()` on a `String`. -/
def stripS (s : String) : String := String.mk (pyStrip s.data)

/-- Truthiness of the DEVELOPMENT_MODE variable:
`value.lower() in ('true', '1', 'yes', 'on')`. -/
def devModeFlag (env : List (String × String)) : Bool :=
  (getenvD env "DEVELOPMENT_MODE").toLower ∈ ["true", "1", "yes", "on"]

/-- Set insertion for the Python `set` of keys (duplicates collapse). -/
def setAdd (s : List String) (k : String) : List String :=
  if k ∈ s then s else s ++ [k]

/-- Keys parsed from the aggregate API_KEYS variable: comma-split, stripped,
empty pieces dropped; skipped entirely when the variable is empty. -/
def aggregateKeys (env : List (String × String)) : List String :=
  let raw := getenvD env "API_KEYS"
  if raw = "" then []
  else (((splitComma raw.data).map pyStrip).filter (fun p => !p.isEmpty)).map String.mk

/-- Merged credential set of `load_api_keys`: aggregate keys plus the
stripped values of every non-empty `API_KEY_*` variable. -/
def mergedKeys (env : List (String × String)) : List String :=
  let base := (aggregateKeys env).foldl setAdd []
  (env.filter (fun kv => kv.1.startsWith "API_KEY_" && kv.2 != "")).foldl
    (fun acc kv => setAdd acc (stripS kv.2)) base

/-- Embedding of `load_api_keys`: returns the credential set and the
development-mode flag, or `Except.error ()` for the fatal `sys.exit(1)`
taken when the set is empty and development mode is off. -/
def load_api_keys (env : List (String × String)) :
    Except Unit (List String × Bool) :=
  let dev := devModeFlag env
  let keys := mergedKeys env
  if keys.isEmpty && !dev then .error () else .ok (keys, dev)

/-! ## Request guard (require_api_key) -/

/-- Message of the Unauthorized error raised by `require_api_key`. -/
def unauthorizedMsg : String := "Valid API key required. Include 'X-API-Key' header."

/-- Embedding of the wrapper installed by `require_api_key`: health and
index endpoints skip authentication, development mode skips it, otherwise
the X-API-Key header must be present, truthy and valid. -/
def authorize (endpoint : String) (dev : Bool) (validKeys : List String)
    (header : Option String) : Except String Unit :=
  if endpoint = "health" || endpoint = "index" then .ok ()
  else if dev then .ok ()
  else
    match header with
    | Option.none => .error unauthorizedMsg
    | some k =>
      if !pyTruthy (.str k) || !is_valid_api_key validKeys (.str k) then
        .error unauthorizedMsg
      else .ok ()

/-! ## Error-message sanitization (ChordProProcessor.process, except branch) -/

/-- Python `needle in hay` substring test on character lists. -/
def containsSub (needle : List Char) : List Char → Bool
  | [] => needle.isEmpty
  | c :: t => needle.isPrefixOf (c :: t) || containsSub needle t

/-- Fuelled scan of Python `hay.replace(pat, repl)` for a non-empty
pattern: at each position, if `pat` starts here, emit `repl` and skip past
the match, otherwise copy one character.  The fuel only bounds recursion
depth; it never runs out when initialised to the length of the scanned
list. -/
def replaceAllGo (pat repl : List Char) : Nat → List Char → List Char
  | _, [] => []
  | 0, c :: t => c :: t
  | f + 1, c :: t =>
    if pat ≠ [] ∧ pat.isPrefixOf (c :: t) then
      repl ++ replaceAllGo pat repl f ((c :: t).drop pat.length)
    else
      c :: replaceAllGo pat repl f t

/-- Python `hay.replace(pat, repl)` for a non-empty pattern: every
left-to-right non-overlapping occurrence of `pat` is replaced by `repl`
(the service only calls it with the non-empty input path as pattern). -/
def replaceAll (pat repl s : List Char) : List Char :=
  replaceAllGo pat repl s.length s

/-- Diagnostic text surfaced on a non-zero renderer exit: stderr stripped
(or a generic message when stderr is empty), with the input path replaced
by the placeholder when it occurs. -/
def sanitizeStderr (stderr inputPath : List Char) : List Char :=
  let errorMsg :=
    if stderr.isEmpty then "Unknown ChordPro error".data else pyStrip stderr
  if containsSub inputPath errorMsg then replaceAll inputPath "<input>".data errorMsg
  else errorMsg

/-! ## Conversion session (ChordProProcessor.process) -/

/-- Temporary input path derived from the per-session unique id. -/
def input_path (id : String) : String := "/tmp/input_" ++ id ++ ".cho"

/-- Temporary output path derived from the id and the output format. -/
def output_path (id fmt : String) : String := "/tmp/output_" ++ id ++ "." ++ fmt

/-- Output formats accepted by the processor. -/
def supported_outputs : List String := ["pdf", "text", "cho", "html"]

/-- Base command of the renderer invocation. -/
def base_cmd : List PyVal := [PyVal.str "chordpro"]

/-- MIME type table of `_get_content_type`. -/
def get_content_type (fmt : String) : String :=
  if fmt = "pdf" then "application/pdf"
  else if fmt = "text" then "text/plain"
  else if fmt = "cho" then "text/plain"
  else if fmt = "html" then "text/html"
  else "application/octet-stream"

/-- Behaviour of the `subprocess.run` call for one invocation: either the
child completed with an exit code, stderr text and an indication whether it
created the output file, or the 30-second timeout expired. -/
inductive RunBehavior where
  | completed (exitCode : Int) (stderr : String) (outputCreated : Bool)
  | timedOut (outputCreated : Bool)

/-- Environment of one conversion session: whether writing the input file
raises (with which message), how the renderer behaves, and whether
`os.unlink` on the input file succeeds. -/
structure ProcEnv where
  writeError : Option String
  run : RunBehavior
  unlinkOk : Bool

/-- Filesystem state relevant to one session: existence of its two
temporary files. -/
structure FsState where
  inputExists : Bool
  outputExists : Bool
deriving DecidableEq, Repr

/-- Outcome of `ChordProProcessor.process`: a successful return with a
content type, the ValueError raised before any file work for an unsupported
format, or a RuntimeError raised from the try/except block. -/
inductive ProcResult where
  | ok (contentType : String)
  | valueError (msg : String)
  | runtimeError (msg : String)
deriving DecidableEq, Repr

/-- Best-effort input cleanup of the `finally` block: the file is removed
when it exists and `os.unlink` succeeds; a failing unlink is logged only
and leaves the state (and the in-flight outcome) unchanged. -/
def cleanupInput (unlinkOk : Bool) (st : FsState) : FsState :=
  if st.inputExists && unlinkOk then { st with inputExists := false } else st

/-- Embedding of `ChordProProcessor.process`: validates the format, writes
the input file, builds the command, runs the renderer, classifies the
outcome, and performs the `finally` cleanup on every path of the
try/except.  Returns the outcome together with the final state of the two
temporary files. -/
def process (env : ProcEnv) (id : String) (content : String)
    (output_format : String) (options : List (String × PyVal)) :
    ProcResult × FsState :=
  if output_format ∉ supported_outputs then
    (.valueError ("Unsupported output format: " ++ output_format), ⟨false, false⟩)
  else
    match env.writeError with
    | some m =>
      (.runtimeError ("Processing failed: " ++ m), cleanupInput env.unlinkOk ⟨false, false⟩)
    | Option.none =>
      match addOptions (base_cmd ++ [PyVal.str (input_path id), PyVal.str "-o",
          PyVal.str (output_path id output_format)]) options with
      | .error e =>
        (.runtimeError ("Processing failed: " ++ pyExnStr e),
         cleanupInput env.unlinkOk ⟨true, false⟩)
      | .ok _cmd =>
        match env.run with
        | .timedOut outCreated =>
          (.runtimeError "ChordPro processing timed out",
           cleanupInput env.unlinkOk ⟨true, outCreated⟩)
        | .completed code stderr created =>
          if code ≠ 0 then
            (.runtimeError ("ChordPro processing failed: " ++
              String.mk (sanitizeStderr stderr.data (input_path id).data)),
             cleanupInput env.unlinkOk ⟨true, created⟩)
          else if !created then
            (.runtimeError "Processing failed: ChordPro did not generate output file",
             cleanupInput env.unlinkOk ⟨true, false⟩)
          else
            (.ok (get_content_type output_format), cleanupInput env.unlinkOk ⟨true, true⟩)

/-! ## Route glue (convert, get_formats) -/

/-- Python `len` of a string: number of code points. -/
def pyLen (s : String) : Nat := s.data.length

/-- Python `isinstance(v, int)` (bools are ints in Python). -/
def isPyInt : PyVal → Bool
  | .int _ => true
  | .bool _ => true
  | _ => false

/-- Python `isinstance(v, dict)`. -/
def isPyDict : PyVal → Bool
  | .dict _ => true
  | _ => false

/-- Python `isinstance(v, bool)`. -/
def isPyBool : PyVal → Bool
  | .bool _ => true
  | _ => false

/-- Python `isinstance(v, (str, list))`. -/
def isPyStrOrList : PyVal → Bool
  | .str _ => true
  | .list _ => true
  | _ => false

/-- Per-key options validation of the convert route. -/
def validateOption (k : String) (v : PyVal) : Option String :=
  if k = "transpose" && !isPyInt v then some "'transpose' option must be an integer"
  else if k = "meta" && !isPyDict v then some "'meta' option must be an object"
  else if k = "diagrams" && !isPyBool v then some "'diagrams' option must be a boolean"
  else if k = "config" && !isPyStrOrList v then some "'config' option must be a string or array"
  else Option.none

/-- First validation error over the options items, in insertion order. -/
def validateOptions : List (String × PyVal) → Option String
  | [] => Option.none
  | (k, v) :: rest =>
    match validateOption k v with
    | some m => some m
    | Option.none => validateOptions rest

/-- HTTP-level outcome of the convert route. -/
inductive ConvertResult where
  | badRequest (msg : String)
  | internalError (msg : String)
  | fileResponse (downloadName contentType : String)
deriving DecidableEq, Repr

/-- Embedding of the `convert` route handler: body checks in source order,
then the processor call.  The second component records whether
`processor.process` was invoked (i.e. whether any temporary file work
happened). -/
def convert (env : ProcEnv) (id : String)
    (data : Option (List (String × PyVal))) : ConvertResult × Bool :=
  match data with
  | Option.none => (.badRequest "JSON body required", false)
  | some d =>
    let content := (pyLookup d "content").getD PyVal.none
    if !pyTruthy content then (.badRequest "'content' field is required", false)
    else
      match content with
      | PyVal.str s =>
        if pyLen s > 1024 * 1024 then (.badRequest "Content too large (max 1MB)", false)
        else
          match (pyLookup d "output_format").getD (PyVal.str "pdf") with
          | PyVal.str fmt =>
            match (pyLookup d "options").getD (PyVal.dict []) with
            | PyVal.dict opts =>
              match validateOptions opts with
              | some m => (.badRequest m, false)
              | Option.none =>
                match process env id s fmt opts with
                | (.ok ct, _) => (.fileResponse ("output." ++ fmt) ct, true)
                | (.valueError _, _) => (.internalError "Processing failed", true)
                | (.runtimeError m, _) => (.internalError m, true)
            | _ => (.badRequest "'options' must be an object", false)
          | _ => (.badRequest "'output_format' must be a string", false)
      | _ => (.badRequest "'content' must be a string", false)

/-- Response of the `/formats` route. -/
structure FormatsResponse where
  supported_formats : List String
  default_format : String

/-- Embedding of `get_formats`. -/
def get_formats : FormatsResponse :=
  ⟨supported_outputs, "pdf"⟩

/-! ## Helper lemmas -/

/-- An Except value with isOk true is an ok value. -/
lemma exists_ok_of_isOk {α β : Type} {x : Except α β} (h : x.isOk = true) :
    ∃ b, x = .ok b := by
  cases x with
  | error e => simp [Except.isOk, Except.toBool] at h
  | ok b => exact ⟨b, rfl⟩

/-- The meta tokens succeed exactly when the meta option is absent or a dict. -/
lemma metaTokens_isOk (o : Option PyVal)
    (h : ∀ v, o = some v → isPyDict v = true) : ∃ l, metaTokens o = .ok l := by
  cases o with
  | none => exact ⟨[], rfl⟩
  | some v =>
    cases v with
    | dict kvs => exact ⟨_, rfl⟩
    | str s => simpa [isPyDict] using h (.str s) rfl
    | int n => simpa [isPyDict] using h (.int n) rfl
    | bool b => simpa [isPyDict] using h (.bool b) rfl
    | list xs => simpa [isPyDict] using h (.list xs) rfl
    | none => simpa [isPyDict] using h .none rfl

/-- The argument builder succeeds whenever meta, if present, is a dict. -/
lemma addOptions_isOk (cmd : List PyVal) (options : List (String × PyVal))
    (h : ∀ v, pyLookup options "meta" = some v → isPyDict v = true) :
    (addOptions cmd options).isOk = true := by
  obtain ⟨mt, hmt⟩ := metaTokens_isOk (pyLookup options "meta") h
  unfold addOptions
  rw [hmt]
  cases pyLookup options "diagrams" with
  | none => rfl
  | some v => cases hv : pyTruthy v <;> simp [hv, Except.isOk, Except.toBool]

/-! ## Claim C4: config string splitting -/

/-- Claim C4 is false as stated: for the config string "a," (a trailing
comma), the builder emits a --config flag for the empty trailing piece,
where the claim predicts that empty pieces contribute no flag. -/
theorem claim_C4_counterexample :
    addOptions base_cmd [("config", PyVal.str "a,")] ≠
      Except.ok (base_cmd ++ [PyVal.str "--config", PyVal.str "a"]) := by
  intro h
  have e : addOptions base_cmd [("config", PyVal.str "a,")] =
      Except.ok [PyVal.str "chordpro", PyVal.str "--config", PyVal.str "a",
        PyVal.str "--config", PyVal.str ""] := rfl
  rw [e] at h
  have h2 := congrArg (fun x => match x with | Except.ok l => l.length | _ => 0) h
  simp [base_cmd] at h2

/-- Claim C4 (amended): when options.config is a string, the builder splits
it on commas, trims surrounding whitespace from each piece, and appends one
--config piece token pair per piece in left-to-right order, including
empty pieces produced by consecutive or trailing commas. -/
theorem claim_C4_amended (cmd : List PyVal) (s : String) :
    addOptions cmd [("config", PyVal.str s)] =
      .ok (cmd ++ (splitComma s.data).flatMap
        (fun p => [PyVal.str "--config", PyVal.str (String.mk (pyStrip p))])) := by
  simp [addOptions, pyLookup, metaTokens, configTokens]

/-! ## Claim C6: argument builder on malformed options -/

/-- Claim C6 is false as stated: when the meta option is present but not a
mapping (here the integer 5), the builder raises an AttributeError rather
than producing a token list or a clean error. -/
theorem claim_C6_counterexample :
    addOptions base_cmd [("meta", PyVal.int 5)] =
      .error (.attributeError "'int' object has no attribute 'items'") := rfl

/-- Claim C6 (amended): the builder never raises for any option values —
wrong-typed transpose, config or diagrams included — provided the meta
field, when present, is a mapping; a non-mapping meta raises an attribute
error that only the session layer's generic handler converts to a clean
failure. -/
theorem claim_C6_amended (cmd : List PyVal) (options : List (String × PyVal))
    (h : ∀ v, pyLookup options "meta" = some v → isPyDict v = true) :
    (addOptions cmd options).isOk = true :=
  addOptions_isOk cmd options h

/-- Witness for the amended C6: every present field has the wrong declared
type (transpose a string, config an int, diagrams a list) and the builder
still succeeds. -/
theorem claim_C6_witness :
    (addOptions base_cmd [("transpose", PyVal.str "x"), ("config", PyVal.int 3),
      ("diagrams", PyVal.list [])]).isOk = true :=
  claim_C6_amended _ _ (by intro v hv; simp [pyLookup] at hv)

/-! ## Claim C9: clean exit without output artifact -/

/-- Claim C9: when the renderer exits 0 but the declared output file does
not exist, process raises a RuntimeError (renderer reported success but
produced no artifact) instead of returning success. -/
theorem claim_C9 (id content fmt stderr : String)
    (options : List (String × PyVal)) (u : Bool)
    (hfmt : fmt ∈ supported_outputs)
    (hmeta : ∀ v, pyLookup options "meta" = some v → isPyDict v = true) :
    (process ⟨Option.none, .completed 0 stderr false, u⟩ id content fmt options).1 =
      .runtimeError "Processing failed: ChordPro did not generate output file" := by
  obtain ⟨l, hl⟩ := exists_ok_of_isOk (addOptions_isOk
    (base_cmd ++ [PyVal.str (input_path id), PyVal.str "-o",
      PyVal.str (output_path id fmt)]) options hmeta)
  simp [process, hfmt, hl]

/-- Witness for C9 at a concrete renderer stub that always exits 0 and
never creates the output file. -/
theorem claim_C9_witness :
    (process ⟨Option.none, .completed 0 "" false, true⟩ "x" "hi" "pdf" []).1 =
      .runtimeError "Processing failed: ChordPro did not generate output file" :=
  claim_C9 "x" "hi" "pdf" "" [] true (by decide)
    (by intro v hv; simp [pyLookup] at hv)

/-! ## Claim C7: startup refuses an empty credential set -/

/-- Claim C7: startup fails fatally exactly when the merged credential set
is empty and development mode is off; otherwise it proceeds with the merged
set and the flag. -/
theorem claim_C7 (env : List (String × String)) :
    (load_api_keys env = .error () ↔
      mergedKeys env = [] ∧ devModeFlag env = false) ∧
    (load_api_keys env = .error () ∨
      load_api_keys env = .ok (mergedKeys env, devModeFlag env)) := by
  cases hd : devModeFlag env <;> by_cases hk : mergedKeys env = [] <;>
    simp [load_api_keys, hd, hk]

/-! ## Claim C8: request guard -/

/-- Claim C8: a request is admitted iff the endpoint is unauthenticated
(health or index), or development mode is on, or a non-empty header key
satisfying is_valid_api_key is supplied; every rejection carries the fixed
Unauthorized message, which contains no key material. -/
theorem claim_C8 (endpoint : String) (dev : Bool) (keys : List String)
    (header : Option String) :
    (authorize endpoint dev keys header = .ok () ↔
      endpoint = "health" ∨ endpoint = "index" ∨ dev = true ∨
        ∃ k, header = some k ∧ k.data ≠ [] ∧
          is_valid_api_key keys (.str k) = true) ∧
    (authorize endpoint dev keys header = .ok () ∨
      authorize endpoint dev keys header = .error unauthorizedMsg) := by
  unfold authorize
  by_cases h1 : endpoint = "health" <;> by_cases h2 : endpoint = "index" <;>
    cases dev <;> simp [h1, h2]
  all_goals
    cases header with
    | none => simp
    | some k =>
      cases hk : k.data.isEmpty <;>
        cases hv : is_valid_api_key keys (.str k) <;>
          simp [pyTruthy, hk, hv, List.isEmpty_iff] <;>
            simp_all [List.isEmpty_iff]

/-! ## Claim C1: credential membership check -/

/-- Instrumented loop characterisation: the scan stops right after the
first matching key, and scans every key when none matches. -/
lemma isValidCountLoop_spec (cand : PyVal) (keys : List String) (n : Nat) :
    isValidCountLoop cand keys n =
      (keys.any (fun k => secure_compare_api_key cand (.str k)),
       n + (keys.takeWhile (fun k => !secure_compare_api_key cand (.str k))).length +
         (if keys.any (fun k => secure_compare_api_key cand (.str k)) then 1 else 0)) := by
  induction keys generalizing n with
  | nil => simp [isValidCountLoop]
  | cons k ks ih =>
    cases hk : secure_compare_api_key cand (.str k) <;>
      simp [isValidCountLoop, hk, ih, List.takeWhile_cons] <;> omega

/-- Claim C1 is false as stated: with two stored keys and a candidate equal
to the first, only one comparison is performed — the loop stops at the
first match instead of comparing the candidate against every stored key. -/
theorem claim_C1_counterexample :
    (isValidCount ["aaaa", "bbbb"] (PyVal.str "aaaa")).2 ≠
      (["aaaa", "bbbb"] : List String).length := by decide

/-- Claim C1 (amended): is_valid returns false for non-string or empty
candidates, and true iff the candidate is byte-for-byte (UTF-8) equal to at
least one stored key; the scan compares key after key, stopping right after
the first matching key (and therefore compares every stored key exactly
when no key matches), each comparison being the constant-time
hmac byte comparison. -/
theorem claim_C1_amended (keys : List String) (cand : PyVal) :
    ((isValidCount keys cand).1 = is_valid_api_key keys cand) ∧
    (is_valid_api_key keys cand = true ↔ pyTruthy cand = true ∧
      ∃ c, cand = PyVal.str c ∧ ∃ k ∈ keys, utf8Encode c = utf8Encode k) ∧
    ((isValidCount keys cand).2 =
      if pyTruthy cand then
        (keys.takeWhile (fun k => !secure_compare_api_key cand (.str k))).length +
          (if is_valid_api_key keys cand then 1 else 0)
      else 0) := by
  refine ⟨?_, ?_, ?_⟩
  · unfold isValidCount is_valid_api_key
    cases ht : pyTruthy cand <;> simp [ht, isValidCountLoop_spec]
  · unfold is_valid_api_key
    cases ht : pyTruthy cand
    · simp [ht]
    · cases cand <;> simp_all [secure_compare_api_key, List.any_eq_true]
  · unfold isValidCount is_valid_api_key
    cases ht : pyTruthy cand <;> simp [ht, isValidCountLoop_spec]

/-! ## Claim C2: input-file cleanup on every exit path -/

/-- Claim C2: on every exit path of process — success, non-zero exit,
missing output, timeout, argument-builder exception, write failure,
unsupported format — the input temporary file no longer exists afterwards
whenever unlink succeeds, and whether unlink succeeds or fails never
changes the primary outcome. -/
theorem claim_C2 (w : Option String) (r : RunBehavior) (b : Bool)
    (id content fmt : String) (options : List (String × PyVal)) :
    (process ⟨w, r, true⟩ id content fmt options).2.inputExists = false ∧
    (process ⟨w, r, b⟩ id content fmt options).1 =
      (process ⟨w, r, true⟩ id content fmt options).1 := by
  have h1 : ∀ st : FsState, (cleanupInput true st).inputExists = false := by
    intro st
    cases st with
    | mk i o => cases i <;> simp [cleanupInput]
  unfold process
  by_cases hf : fmt ∈ supported_outputs
  · cases w with
    | some m => simp [hf, h1]
    | none =>
      cases ha : addOptions (base_cmd ++ [PyVal.str (input_path id), PyVal.str "-o",
          PyVal.str (output_path id fmt)]) options with
      | error e => simp [hf, ha, h1]
      | ok l =>
        cases r with
        | timedOut oc => simp [hf, ha, h1]
        | completed code stderr created =>
          by_cases hc : code = 0
          · cases created <;> simp [hf, ha, hc, h1]
          · simp [hf, ha, hc, h1]
  · simp [hf]

lemma isPrefixOfIff (l1 l2 : List Char) : l1.isPrefixOf l2 = true ↔ l1 <+: l2 := by
  induction l1 generalizing l2 with
  | nil => simp [List.isPrefixOf, List.nil_prefix]
  | cons a as ih =>
    cases l2 with
    | nil => simp [List.isPrefixOf]
    | cons b bs => simp [List.isPrefixOf, ih, List.cons_prefix_cons]

lemma head_mem_of_containsSub (a : Char) (l hay : List Char)
    (h : containsSub (a :: l) hay = true) : a ∈ hay := by
  induction hay with
  | nil => simp [containsSub] at h
  | cons c t ih =>
    simp only [containsSub, Bool.or_eq_true] at h
    rcases h with h | h
    · have hp := (isPrefixOfIff _ _).1 h
      rw [List.cons_prefix_cons] at hp
      exact hp.1 ▸ List.mem_cons_self c t
    · exact List.mem_cons_of_mem _ (ih h)

lemma containsSub_append_eq_false (p : Char) (ps x rest : List Char)
    (hx : p ∉ x) (hrest : containsSub (p :: ps) rest = false) :
    containsSub (p :: ps) (x ++ rest) = false := by
  induction x with
  | nil => simpa using hrest
  | cons d x' ih =>
    have hd : p ≠ d := fun h => hx (h ▸ List.mem_cons_self d x')
    have hx' : p ∉ x' := fun h => hx (List.mem_cons_of_mem d h)
    simp only [List.cons_append, containsSub, Bool.or_eq_false_iff]
    refine ⟨?_, ih hx'⟩
    cases hpre : (p :: ps).isPrefixOf (d :: (x' ++ rest)) with
    | false => rfl
    | true =>
      exfalso
      have hp := (isPrefixOfIff _ _).1 hpre
      rw [List.cons_prefix_cons] at hp
      exact hd hp.1

lemma prefix_of_replaceAllGo (pat : List Char) (r : Char) (rs : List Char) :
    ∀ (f : Nat) (t q : List Char),
      q <+: replaceAllGo pat (r :: rs) f t → q <+: t ∨ r ∈ q := by
  intro f
  induction f with
  | zero =>
    intro t q hq
    cases t with
    | nil =>
      simp only [replaceAllGo] at hq
      exact Or.inl hq
    | cons c t' =>
      simp only [replaceAllGo] at hq
      exact Or.inl hq
  | succ f ih =>
    intro t q hq
    cases t with
    | nil =>
      simp only [replaceAllGo] at hq
      exact Or.inl hq
    | cons c t' =>
      simp only [replaceAllGo] at hq
      by_cases hp : pat ≠ [] ∧ pat.isPrefixOf (c :: t')
      · rw [if_pos hp] at hq
        cases q with
        | nil => exact Or.inl (List.nil_prefix)
        | cons qh q' =>
          rw [List.cons_append, List.cons_prefix_cons] at hq
          exact Or.inr (hq.1 ▸ List.mem_cons_self qh q')
      · rw [if_neg hp] at hq
        cases q with
        | nil => exact Or.inl (List.nil_prefix)
        | cons qh q' =>
          rw [List.cons_prefix_cons] at hq
          obtain ⟨hqc, hq'⟩ := hq
          rcases ih t' q' hq' with h | h
          · exact Or.inl (List.cons_prefix_cons.2 ⟨hqc, h⟩)
          · exact Or.inr (List.mem_cons_of_mem _ h)

lemma containsSub_replaceAllGo (p : Char) (ps : List Char) (r : Char) (rs : List Char)
    (hpr : p ∉ r :: rs) (hrp : r ∉ p :: ps) :
    ∀ (f : Nat) (t : List Char), t.length ≤ f →
      containsSub (p :: ps) (replaceAllGo (p :: ps) (r :: rs) f t) = false := by
  intro f
  induction f with
  | zero =>
    intro t ht
    have : t = [] := List.length_eq_zero.1 (Nat.le_zero.1 ht)
    subst this
    simp [replaceAllGo, containsSub]
  | succ f ih =>
    intro t ht
    cases t with
    | nil => simp [replaceAllGo, containsSub]
    | cons c t' =>
      simp only [replaceAllGo]
      by_cases hp : (p :: ps) ≠ [] ∧ (p :: ps).isPrefixOf (c :: t')
      · rw [if_pos hp]
        refine containsSub_append_eq_false p ps (r :: rs) _ hpr (ih _ ?_)
        simp only [List.length_drop, List.length_cons]
        simp only [List.length_cons] at ht
        omega
      · rw [if_neg hp]
        simp only [containsSub, Bool.or_eq_false_iff]
        refine ⟨?_, ih t' (by simp only [List.length_cons] at ht; omega)⟩
        cases hpre : (p :: ps).isPrefixOf (c :: replaceAllGo (p :: ps) (r :: rs) f t') with
        | false => rfl
        | true =>
          exfalso
          have hpp := (isPrefixOfIff _ _).1 hpre
          rw [List.cons_prefix_cons] at hpp
          obtain ⟨hpc, hps⟩ := hpp
          rcases prefix_of_replaceAllGo (p :: ps) r rs f t' ps hps with h | h
          · exact hp ⟨by simp, (isPrefixOfIff _ _).2 (List.cons_prefix_cons.2 ⟨hpc, h⟩)⟩
          · exact hrp (List.mem_cons_of_mem _ h)

lemma containsSub_replaceAll (p : Char) (ps : List Char) (r : Char) (rs : List Char)
    (hpr : p ∉ r :: rs) (hrp : r ∉ p :: ps) (t : List Char) :
    containsSub (p :: ps) (replaceAll (p :: ps) (r :: rs) t) = false :=
  containsSub_replaceAllGo p ps r rs hpr hrp t.length t le_rfl

lemma sanitizeStderr_no_path (stderr : List Char) (p : Char) (ps : List Char)
    (hpr : p ∉ "<input>".data) (hrp : '<' ∉ p :: ps) :
    containsSub (p :: ps) (sanitizeStderr stderr (p :: ps)) = false := by
  have e : sanitizeStderr stderr (p :: ps) =
      (if containsSub (p :: ps)
          (if stderr.isEmpty = true then "Unknown ChordPro error".data
            else pyStrip stderr) = true then
        replaceAll (p :: ps) "<input>".data
          (if stderr.isEmpty = true then "Unknown ChordPro error".data
            else pyStrip stderr)
      else
        (if stderr.isEmpty = true then "Unknown ChordPro error".data
          else pyStrip stderr)) := rfl
  rw [e]
  set msg := (if stderr.isEmpty = true then "Unknown ChordPro error".data
    else pyStrip stderr) with hmsg
  cases hc : containsSub (p :: ps) msg with
  | false =>
    rw [if_neg (by simp)]
    exact hc
  | true =>
    rw [if_pos rfl]
    exact containsSub_replaceAll p ps '<' "input>".data hpr hrp msg

/-- Character decomposition of the temporary input path. -/
lemma input_path_data (id : String) :
    (input_path id).data = '/' :: ("tmp/input_".data ++ (id.data ++ ".cho".data)) := by
  show (("/tmp/input_" ++ id) ++ ".cho").data = _
  rw [String.data_append, String.data_append, List.append_assoc]
  rfl

/-- The placeholder character never occurs in a path whose id avoids it. -/
lemma lt_not_mem_input_path (id : String) (hid : '<' ∉ id.data) :
    '<' ∉ (input_path id).data := by
  rw [input_path_data]
  intro h
  rcases List.mem_cons.1 h with h | h
  · exact absurd h (by decide)
  rcases List.mem_append.1 h with h | h
  · exact absurd h (by decide)
  rcases List.mem_append.1 h with h | h
  · exact hid h
  · exact absurd h (by decide)

/-! ## Claim C3: error-message path redaction -/

/-- Claim C3: on a non-zero renderer exit, process raises a RuntimeError
whose diagnostic is the sanitized stderr text (stripped, with every
occurrence of the input path replaced); empty stderr falls back to the
generic message; and the surfaced error text never contains the temporary
input path. -/
theorem claim_C3 (id content fmt stderr : String)
    (options : List (String × PyVal)) (code : Int) (created u : Bool)
    (hfmt : fmt ∈ supported_outputs)
    (hmeta : ∀ v, pyLookup options "meta" = some v → isPyDict v = true)
    (hcode : code ≠ 0) (hid : '<' ∉ id.data) :
    (process ⟨Option.none, .completed code stderr created, u⟩ id content fmt options).1 =
      .runtimeError ("ChordPro processing failed: " ++
        String.mk (sanitizeStderr stderr.data (input_path id).data)) ∧
    sanitizeStderr [] (input_path id).data = "Unknown ChordPro error".data ∧
    containsSub (input_path id).data
      ("ChordPro processing failed: ".data ++
        sanitizeStderr stderr.data (input_path id).data) = false := by
  have hlt := lt_not_mem_input_path id hid
  have hsan : ∀ sd : List Char,
      containsSub (input_path id).data (sanitizeStderr sd (input_path id).data) = false := by
    intro sd
    rw [input_path_data] at hlt ⊢
    exact sanitizeStderr_no_path sd '/' _ (by decide) hlt
  refine ⟨?_, ?_, ?_⟩
  · obtain ⟨l, hl⟩ := exists_ok_of_isOk (addOptions_isOk
      (base_cmd ++ [PyVal.str (input_path id), PyVal.str "-o",
        PyVal.str (output_path id fmt)]) options hmeta)
    simp [process, hfmt, hl, hcode]
  · have hgen : containsSub (input_path id).data "Unknown ChordPro error".data = false := by
      cases hg : containsSub (input_path id).data "Unknown ChordPro error".data with
      | false => rfl
      | true =>
        exfalso
        rw [input_path_data] at hg
        exact absurd (head_mem_of_containsSub _ _ _ hg) (by decide)
    have e : sanitizeStderr [] (input_path id).data =
        (if containsSub (input_path id).data "Unknown ChordPro error".data = true then
          replaceAll (input_path id).data "<input>".data "Unknown ChordPro error".data
        else "Unknown ChordPro error".data) := rfl
    rw [e, hgen, if_neg (by simp)]
  · rw [input_path_data] at hsan ⊢
    exact containsSub_append_eq_false '/' _ "ChordPro processing failed: ".data _
      (by decide) (hsan stderr.data)

/-- Witness for C3 at a renderer stub that exits 1 with stderr containing
the literal input path. -/
theorem claim_C3_witness :
    (process ⟨Option.none, .completed 1 "boom /tmp/input_ab.cho" false, true⟩
        "ab" "x" "pdf" []).1 =
      .runtimeError ("ChordPro processing failed: " ++
        String.mk (sanitizeStderr "boom /tmp/input_ab.cho".data (input_path "ab").data)) ∧
    sanitizeStderr [] (input_path "ab").data = "Unknown ChordPro error".data ∧
    containsSub (input_path "ab").data
      ("ChordPro processing failed: ".data ++
        sanitizeStderr "boom /tmp/input_ab.cho".data (input_path "ab").data) = false :=
  claim_C3 "ab" "x" "pdf" "boom /tmp/input_ab.cho" [] 1 false true (by decide)
    (by intro v hv; simp [pyLookup] at hv) (by decide) (by decide)

/-! ## Claims C10 and C5: convert route defaults and the content bound -/

/-- Success of the convert route on a well-formed request with no
output_format and no options, against a renderer that succeeds. -/
lemma convert_ok_aux (c id : String) (h1 : c.data ≠ []) (h2 : pyLen c ≤ 1024 * 1024) :
    convert ⟨Option.none, .completed 0 "" true, true⟩ id
      (some [("content", PyVal.str c)]) =
      (.fileResponse "output.pdf" "application/pdf", true) := by
  have hne : c.data.isEmpty = false := by simpa [List.isEmpty_iff] using h1
  have hlen : ¬ pyLen c > 1024 * 1024 := by omega
  simp [convert, pyLookup, pyTruthy, hne, hlen]
  rfl

/-- Claim C10: a request that omits output_format entirely is not rejected:
the format defaults to pdf, the conversion proceeds and the response is the
pdf document, matching the default_format advertised by the formats
endpoint. -/
theorem claim_C10 (c id : String) (h1 : c.data ≠ []) (h2 : pyLen c ≤ 1024 * 1024) :
    pyLookup [("content", PyVal.str c)] "output_format" = Option.none ∧
    convert ⟨Option.none, .completed 0 "" true, true⟩ id
      (some [("content", PyVal.str c)]) =
      (.fileResponse "output.pdf" "application/pdf", true) ∧
    get_formats.default_format = "pdf" :=
  ⟨rfl, convert_ok_aux c id h1 h2, rfl⟩

/-- Witness for C10 on a one-character request body without output_format. -/
theorem claim_C10_witness :
    pyLookup [("content", PyVal.str "x")] "output_format" = Option.none ∧
    convert ⟨Option.none, .completed 0 "" true, true⟩ "y"
      (some [("content", PyVal.str "x")]) =
      (.fileResponse "output.pdf" "application/pdf", true) ∧
    get_formats.default_format = "pdf" :=
  claim_C10 "x" "y" (by decide) (by decide)

/-- Claim C5 (amended): a request whose content exceeds 1,048,576
characters (code points — not bytes) is rejected with the validation error
before the processor is invoked, hence before any temporary file is
created or written. -/
theorem claim_C5_amended (env : ProcEnv) (id : String)
    (d : List (String × PyVal)) (s : String)
    (hs : pyLookup d "content" = some (PyVal.str s))
    (hlen : pyLen s > 1024 * 1024) :
    convert env id (some d) = (.badRequest "Content too large (max 1MB)", false) := by
  have hne : s.data.isEmpty = false := by
    cases hd : s.data with
    | nil => simp [pyLen, hd] at hlen
    | cons a l => rfl
  simp [convert, hs, pyTruthy, hne, hlen]

/-- Content of 1,048,577 ASCII characters. -/
def bigAsciiContent : String := String.mk (List.replicate 1048577 'a')

/-- Witness for the amended C5 at a concrete over-long ASCII content. -/
theorem claim_C5_amended_witness :
    convert ⟨Option.none, .completed 0 "" true, true⟩ "x"
      (some [("content", PyVal.str bigAsciiContent)]) =
      (.badRequest "Content too large (max 1MB)", false) :=
  claim_C5_amended _ "x" _ bigAsciiContent rfl (by
    show bigAsciiContent.data.length > 1024 * 1024
    rw [show bigAsciiContent.data = List.replicate 1048577 'a' from rfl,
      List.length_replicate]
    norm_num)

/-- Content of 524,289 two-byte characters: 524,289 code points but
1,048,578 UTF-8 bytes. -/
def bigUnicodeContent : String := String.mk (List.replicate 524289 'é')

/-- UTF-8 byte length of a string. -/
def utf8Len (s : String) : Nat := (utf8Encode s).length

/-- Claim C5 is false as stated: this content is longer than 1,048,576
bytes, yet the request is accepted and the processor runs (temporary files
are created and written) — the bound is enforced on the code-point count,
not on the byte length. -/
theorem claim_C5_counterexample :
    utf8Len bigUnicodeContent > 1024 * 1024 ∧
    convert ⟨Option.none, .completed 0 "" true, true⟩ "x"
      (some [("content", PyVal.str bigUnicodeContent)]) =
      (.fileResponse "output.pdf" "application/pdf", true) := by
  have hdata : bigUnicodeContent.data = List.replicate 524289 'é' := rfl
  constructor
  · show (utf8Encode bigUnicodeContent).length > 1024 * 1024
    rw [show utf8Encode bigUnicodeContent = bigUnicodeContent.data.flatMap utf8EncodeChar
        from rfl,
      hdata, List.length_flatMap, List.map_replicate, List.sum_replicate,
      show (List.length ∘ utf8EncodeChar) 'é' = 2 from rfl]
    norm_num
  · refine convert_ok_aux _ "x" ?_ ?_
    · intro h
      rw [hdata] at h
      have h2 := congrArg List.length h
      rw [List.length_replicate] at h2
      simp at h2
    · show bigUnicodeContent.data.length ≤ 1024 * 1024
      rw [hdata, List.length_replicate]
      norm_num
